import Mathlib

/-!
Verification of the BETTER API client (api_client.py, main_explorer.py).

The development shallowly embeds the request dispatcher `_make_request`
(api_client.py lines 11-52), the URL construction (line 18), the polling
loop `poll_for_building_analysis_completion` (lines 140-172), and the
per-building submit-and-poll flow of `main` (main_explorer.py lines
112-132).  Python dictionaries and JSON bodies are modelled as `JValue`;
the HTTP transport and the JSON parser are external collaborators and are
passed in as parameters (an `HttpOutcome` describing what the network
would return, and a `parse` oracle standing for `json.loads`), exactly as
the specification treats them.
-/

/-- JSON-like values as produced by `response.json()` and used for the
dictionaries the Python client builds.  Numeric payloads are modelled as
integers (no claim inspects a fractional number). -/
inductive JValue where
  | null
  | bool (b : Bool)
  | num (n : Int)
  | str (s : String)
  | arr (elems : List JValue)
  | obj (fields : List (String × JValue))

/-- Python truthiness (`if details:` / `if not api_key:`) on the values the
client manipulates: `None`, `False`, `0`, `""`, `[]`, `{}` are falsy. -/
def truthy : JValue → Bool
  | .null => false
  | .bool b => b
  | .num n => n != 0
  | .str s => s != ""
  | .arr xs => !xs.isEmpty
  | .obj fs => !fs.isEmpty

/-- Python `k in d` for a dictionary tests key membership, and for a list
tests value membership.  On scalars Python would raise `TypeError`; the
client only reaches the membership test on dictionaries (snapshots and
error records), so scalars are mapped to `false` here. -/
def hasKey (v : JValue) (k : String) : Bool :=
  match v with
  | .obj fs => fs.any (fun p => p.1 == k)
  | .arr xs => xs.any (fun x => match x with | .str s => s == k | _ => false)
  | _ => false

/-- Python `d.get(k)`: the value stored at the first occurrence of key `k`,
or `None` (here `Option.none`) when absent.  On a non-dictionary Python
would raise `AttributeError`; the client only calls `.get` on values that
passed the dictionary-shaped checks, so those cases map to `none`. -/
def getKey (v : JValue) (k : String) : Option JValue :=
  match v with
  | .obj fs => (fs.find? (fun p => p.1 == k)).map Prod.snd
  | _ => none

/-- Python truthiness of an optional string argument (`not api_key`):
falsy when the argument is absent (`None`, the default) or empty. -/
def strFalsy : Option String → Bool
  | none => true
  | some s => s == ""

/-- Python `method.upper()` (the methods used are ASCII), as a
character-wise map over the string's character list. -/
def upperStr (s : String) : String := ⟨s.data.map Char.toUpper⟩

/-- Python `endpoint.lstrip(chr 47)`: drop every leading slash. -/
def lstripSlash (s : String) : String := ⟨s.data.dropWhile (· = '/')⟩

/-- Python `base_url.rstrip(chr 47)`: drop every trailing slash. -/
def rstripSlash (s : String) : String := ⟨(s.data.reverse.dropWhile (· = '/')).reverse⟩

/-- URL construction of api_client.py line 18: the base URL stripped of
trailing slashes, one slash, the endpoint stripped of leading slashes. -/
def buildUrl (base_url endpoint : String) : String :=
  rstripSlash base_url ++ "/" ++ lstripSlash endpoint

/-- What the HTTP transport (the `requests` library) would produce for the
one request `_make_request` sends: either an HTTP response with a status
code, a body, and the message `str(http_err)` that `raise_for_status`
would put in its exception, or a transport-level failure
(`requests.exceptions.RequestException`) carrying `str(req_err)`. -/
inductive HttpOutcome where
  | response (status : Nat) (body : String) (err_msg : String)
  | request_failure (msg : String)

/-- Result of one `_make_request` call: the returned Python value, whether
one of the four `requests.<verb>` network calls was reached, and the URL
of line 18 when control reached it (it is computed only after the
credential check). -/
structure RequestResult where
  result : JValue
  network_called : Bool
  url : Option String

/-- Embedding of `_make_request` (api_client.py lines 11-52).  `parse`
stands for the JSON decoding performed by `response.json()`: since
requests 2.27 a failure raises `requests.exceptions.JSONDecodeError`,
which subclasses both `RequestException` (via `InvalidJSONError`) and
`json.JSONDecodeError`, carrying the decode message.  The four supported
verbs differ only in which `requests` function they call; with the
transport abstracted into `outcome` they share one continuation, which
performs `raise_for_status` (an `HTTPError` exactly when the status code
is 4XX or 5XX), then parses a non-empty body and returns `None` for an
empty one.  Because Python matches `except` clauses top-down, a decode
failure on a 2xx body is caught by the line-49
`except requests.exceptions.RequestException` arm — before the line-51
`except json.JSONDecodeError` arm, which is dead code on this path — so
it yields the line-50 record, not the line-52 one.  Inside the line-42
HTTPError handler the nested `try` of lines 44-47 names
`json.JSONDecodeError`, which the raised class also subclasses, so there
the decode failure is caught and `details` falls back to the raw text. -/
def _make_request (parse : String → Except String JValue) (outcome : HttpOutcome)
    (method endpoint : String) (api_key base_url : Option String) : RequestResult :=
  if strFalsy api_key || strFalsy base_url then
    { result := .obj [("error", .str "API_KEY and BASE_URL must be provided.")]
      network_called := false
      url := none }
  else
    let url := buildUrl (base_url.getD "") endpoint
    let send : RequestResult :=
      match outcome with
      | .request_failure msg =>
          { result := .obj [("error", .str "RequestException"), ("message", .str msg)]
            network_called := true
            url := some url }
      | .response status body err_msg =>
          if 400 ≤ status ∧ status < 600 then
            let error_content : JValue :=
              match parse body with
              | .ok v => v
              | .error _ => .str body
            { result := .obj [("error", .str "HTTPError"),
                              ("status_code", .num (Int.ofNat status)),
                              ("message", .str err_msg),
                              ("details", error_content)]
              network_called := true
              url := some url }
          else if body == "" then
            { result := .null, network_called := true, url := some url }
          else
            match parse body with
            | .ok v => { result := v, network_called := true, url := some url }
            | .error msg =>
                { result := .obj [("error", .str "RequestException"), ("message", .str msg)]
                  network_called := true
                  url := some url }
    if upperStr method = "GET" then send
    else if upperStr method = "POST" then send
    else if upperStr method = "PATCH" then send
    else if upperStr method = "DELETE" then send
    else
      { result := .obj [("error", .str ("Unsupported HTTP method: " ++ method))]
        network_called := false
        url := some url }

/-- Which `return` of `poll_for_building_analysis_completion` produced the
result, named after the specification's terminal states: line 154 →
`complete`, line 157 → `failed`, line 162 → `unexpected`, line 172 with a
previously assigned `details` → `timedOut`, line 172 when the loop body
never ran (`max_attempts = 0`, so `details` is not in `locals()`) →
`noData`. -/
inductive PollExit where
  | complete
  | failed
  | unexpected
  | timedOut
  | noData
deriving DecidableEq

/-- Observable behaviour of one call to
`poll_for_building_analysis_completion`: the returned value, how many
status queries (`get_building_analysis_details` calls) were performed,
how many `time.sleep(poll_interval_seconds)` calls were performed, and
which exit was taken. -/
structure PollResult where
  returned : JValue
  status_queries : Nat
  sleeps : Nat
  exitTaken : PollExit

/-- The hard-coded fallback of api_client.py line 172, returned only when
no `details` variable was ever assigned. -/
def noDataMarker : JValue := .obj [("error", .str "Polling failed to get details.")]

/-- Loop body of `poll_for_building_analysis_completion` (api_client.py
lines 146-172).  `queries i` is what `get_building_analysis_details`
returns on the i-th attempt (0-based); `attempt` counts the queries made
so far, `remaining` the attempts left, `sleeps` the sleeps so far, and
`last` is the current value of the Python variable `details` (`none`
while unassigned).  A successful snapshot (truthy, no "error" key) is
inspected: COMPLETE, FAILED and any unrecognized `generation_result`
return it at once; IN_PROGRESS sleeps and continues.  A failed or falsy
query result also sleeps and continues.  When attempts are exhausted the
last assigned `details` is returned, or the line-172 marker if none ever
was. -/
def pollGo (queries : Nat → JValue) (attempt remaining sleeps : Nat)
    (last : Option JValue) : PollResult :=
  match remaining with
  | 0 =>
      match last with
      | some d => { returned := d, status_queries := attempt, sleeps := sleeps, exitTaken := .timedOut }
      | none => { returned := noDataMarker, status_queries := attempt, sleeps := sleeps, exitTaken := .noData }
  | r + 1 =>
      let details := queries attempt
      if truthy details && !hasKey details "error" then
        match getKey details "generation_result" with
        | some (.str "COMPLETE") =>
            { returned := details, status_queries := attempt + 1, sleeps := sleeps, exitTaken := .complete }
        | some (.str "FAILED") =>
            { returned := details, status_queries := attempt + 1, sleeps := sleeps, exitTaken := .failed }
        | some (.str "IN_PROGRESS") =>
            pollGo queries (attempt + 1) r (sleeps + 1) (some details)
        | _ =>
            { returned := details, status_queries := attempt + 1, sleeps := sleeps, exitTaken := .unexpected }
      else
        pollGo queries (attempt + 1) r (sleeps + 1) (some details)

/-- Embedding of `poll_for_building_analysis_completion` (api_client.py
lines 140-172), with the dispatcher abstracted into the sequence
`queries` of values its status calls would return. -/
def poll_for_building_analysis_completion (queries : Nat → JValue)
    (max_attempts : Nat) : PollResult :=
  pollGo queries 0 max_attempts 0 none

/-- Outcome of the per-building submit-and-poll flow of `main`
(main_explorer.py lines 112-132): the trigger response was falsy or had
no "id" (line 116, `continue` without polling), the trigger response
itself reported FAILED (line 123, `continue` without polling), or the
poll loop ran. -/
inductive FlowResult where
  | trigger_failed (resp : JValue)
  | sync_rejected (resp : JValue)
  | polled (r : PollResult)

/-- Number of status queries performed by the flow: zero unless the poll
loop was entered. -/
def FlowResult.flow_status_queries : FlowResult → Nat
  | .trigger_failed _ => 0
  | .sync_rejected _ => 0
  | .polled r => r.status_queries

/-- Embedding of the per-building body of `main` (main_explorer.py lines
112-132): `submitResp` is what `run_building_analysis` returned, and
`queries` feeds the poll loop as above. -/
def submit_and_poll (submitResp : JValue) (queries : Nat → JValue)
    (max_attempts : Nat) : FlowResult :=
  if !truthy submitResp || !hasKey submitResp "id" then
    .trigger_failed submitResp
  else
    match getKey submitResp "generation_result" with
    | some (.str "FAILED") => .sync_rejected submitResp
    | _ => .polled (poll_for_building_analysis_completion queries max_attempts)

/-- A successful IN_PROGRESS snapshot: truthy, without an "error" key,
with `generation_result` equal to "IN_PROGRESS". -/
def inProgressSnap (d : JValue) : Prop :=
  (truthy d && !hasKey d "error") = true
    ∧ getKey d "generation_result" = some (.str "IN_PROGRESS")

/-- A successful COMPLETE snapshot. -/
def completeSnap (d : JValue) : Prop :=
  (truthy d && !hasKey d "error") = true
    ∧ getKey d "generation_result" = some (.str "COMPLETE")

/-- A query result on which the loop sleeps and retries: a successful
IN_PROGRESS snapshot, or a falsy or "error"-carrying result (the `else`
branch of line 163). -/
def retriesOn (d : JValue) : Prop :=
  inProgressSnap d ∨ (truthy d && !hasKey d "error") = false

theorem pollGo_retry_step (queries : Nat → JValue) (a r s : Nat)
    (last : Option JValue) (h : retriesOn (queries a)) :
    pollGo queries a (r + 1) s last = pollGo queries (a + 1) r (s + 1) (some (queries a)) := by
  rcases h with ⟨h1, h2⟩ | h1
  · simp [pollGo, h1, h2]
  · simp [pollGo, h1]

theorem pollGo_complete_step (queries : Nat → JValue) (a r s : Nat)
    (last : Option JValue) (h : completeSnap (queries a)) :
    pollGo queries a (r + 1) s last
      = { returned := queries a, status_queries := a + 1, sleeps := s, exitTaken := .complete } := by
  obtain ⟨h1, h2⟩ := h
  simp [pollGo, h1, h2]

theorem pollGo_skip (queries : Nat → JValue) (j : Nat) :
    ∀ (a m s : Nat) (last : Option JValue),
      (∀ i, i < j → retriesOn (queries (a + i))) →
      ∃ l2, pollGo queries a (j + m) s last = pollGo queries (a + j) m (s + j) l2 := by
  induction j with
  | zero => intro a m s last _; exact ⟨last, by simp⟩
  | succ n ih =>
      intro a m s last hall
      have h0 : retriesOn (queries a) := by simpa using hall 0 (Nat.succ_pos n)
      have e1 : n + 1 + m = (n + m) + 1 := by omega
      rw [e1, pollGo_retry_step queries a (n + m) s last h0]
      obtain ⟨l2, hl2⟩ := ih (a + 1) m (s + 1) (some (queries a))
        (fun i hi => by
          have := hall (i + 1) (by omega)
          simpa [Nat.add_assoc, Nat.add_comm 1 i] using this)
      refine ⟨l2, ?_⟩
      rw [hl2]
      have e2 : a + 1 + n = a + (n + 1) := by omega
      have e3 : s + 1 + n = s + (n + 1) := by omega
      rw [e2, e3]

/-- Exhaustion lemma: when every one of `m ≥ 1` attempts hits a query
result the loop retries on, the loop performs all `m` queries, sleeps
after each of them, and returns the last query result through the
timed-out exit of line 172. -/
theorem poll_exhaust_retries (queries : Nat → JValue) (m : Nat) (hm : 1 ≤ m)
    (hall : ∀ i, i < m → retriesOn (queries i)) :
    poll_for_building_analysis_completion queries m
      = { returned := queries (m - 1), status_queries := m, sleeps := m,
          exitTaken := .timedOut } := by
  obtain ⟨l2, hl2⟩ := pollGo_skip queries (m - 1) 0 1 0 none
    (fun i hi => by simpa using hall i (by omega))
  have e1 : m - 1 + 1 = m := by omega
  unfold poll_for_building_analysis_completion
  rw [e1] at hl2
  rw [hl2]
  have hlast : retriesOn (queries (0 + (m - 1))) := by
    simpa using hall (m - 1) (by omega)
  rw [show (1 : Nat) = 0 + 1 from rfl, pollGo_retry_step queries _ 0 _ l2 hlast]
  simp [pollGo]
  omega

/-- **C1.** If every one of the `max_attempts` status queries succeeds and
reports `generation_result = IN_PROGRESS`, then
`poll_for_building_analysis_completion` performs exactly `max_attempts`
queries, exits through the timed-out return of line 172, and returns
exactly the last IN_PROGRESS snapshot it observed. -/
theorem claim_C1_all_in_progress_times_out (queries : Nat → JValue) (max_attempts : Nat)
    (hm : 1 ≤ max_attempts)
    (hall : ∀ i, i < max_attempts → inProgressSnap (queries i)) :
    (poll_for_building_analysis_completion queries max_attempts).status_queries = max_attempts
    ∧ (poll_for_building_analysis_completion queries max_attempts).exitTaken = .timedOut
    ∧ (poll_for_building_analysis_completion queries max_attempts).returned
        = queries (max_attempts - 1) := by
  rw [poll_exhaust_retries queries max_attempts hm (fun i hi => Or.inl (hall i hi))]
  exact ⟨rfl, rfl, rfl⟩

/-- Sample IN_PROGRESS snapshot used by the concrete witnesses. -/
def ipSnap : JValue := .obj [("id", .num 55), ("generation_result", .str "IN_PROGRESS")]

theorem claim_C1_witness :
    (poll_for_building_analysis_completion (fun _ => ipSnap) 3).status_queries = 3
    ∧ (poll_for_building_analysis_completion (fun _ => ipSnap) 3).exitTaken = .timedOut
    ∧ (poll_for_building_analysis_completion (fun _ => ipSnap) 3).returned = ipSnap := by
  have h := claim_C1_all_in_progress_times_out (fun _ => ipSnap) 3 (by omega)
    (fun i _ => ⟨rfl, rfl⟩)
  simpa using h

/-- Transport-error record with message "boom", exactly what
`_make_request` returns for a `requests.exceptions.RequestException`. -/
def reqErrSample : JValue :=
  .obj [("error", .str "RequestException"), ("message", .str "boom")]

/-- **C2 (counterexample).** With `max_attempts = 5` and every status query
failing at the dispatcher level with a transport error (the record is
exactly what `_make_request` produces for a `RequestException`), the loop
exhausts its attempts but returns the last transport-error record itself,
not the dedicated "no data obtained" marker of line 172 — so the claim as
stated is false. -/
theorem claim_C2_counterexample :
    (_make_request (fun _ => .error "bad") (.request_failure "boom") "GET"
        "/buildings/202/analytics/9/" (some "key") (some "http://api")).result = reqErrSample
    ∧ (poll_for_building_analysis_completion (fun _ => reqErrSample) 5).returned = reqErrSample
    ∧ (poll_for_building_analysis_completion (fun _ => reqErrSample) 5).returned
        ≠ noDataMarker := by
  refine ⟨rfl, rfl, ?_⟩
  intro h
  have h2 : getKey reqErrSample "error" = getKey noDataMarker "error" := by
    rw [show (poll_for_building_analysis_completion (fun _ => reqErrSample) 5).returned
          = reqErrSample from rfl] at h
    rw [h]
  rw [show getKey reqErrSample "error" = some (.str "RequestException") from rfl,
      show getKey noDataMarker "error" = some (.str "Polling failed to get details.") from rfl]
    at h2
  injection h2 with h3
  injection h3 with h4
  exact absurd h4 (by decide)

/-- **C2 (amended).** If every one of `max_attempts ≥ 1` status queries
fails at the dispatcher level (carries an "error" key), the loop performs
all attempts and returns the **last failure record itself** — a
well-formed error object, never `None`; the dedicated line-172
"no data obtained" marker is returned only when `max_attempts = 0`, in
which case no query was ever issued. -/
theorem claim_C2_amended_last_failure_record (queries : Nat → JValue) (max_attempts : Nat)
    (hm : 1 ≤ max_attempts)
    (hall : ∀ i, i < max_attempts → hasKey (queries i) "error" = true) :
    (poll_for_building_analysis_completion queries max_attempts).exitTaken = .timedOut
    ∧ (poll_for_building_analysis_completion queries max_attempts).status_queries = max_attempts
    ∧ (poll_for_building_analysis_completion queries max_attempts).returned
        = queries (max_attempts - 1)
    ∧ (poll_for_building_analysis_completion queries max_attempts).returned ≠ .null
    ∧ (poll_for_building_analysis_completion queries 0).returned = noDataMarker
    ∧ (poll_for_building_analysis_completion queries 0).status_queries = 0 := by
  have hret : ∀ i, i < max_attempts → retriesOn (queries i) := by
    intro i hi
    exact Or.inr (by simp [hall i hi])
  rw [poll_exhaust_retries queries max_attempts hm hret]
  refine ⟨rfl, rfl, rfl, ?_, rfl, rfl⟩
  intro hnull
  have h := hall (max_attempts - 1) (by omega)
  have hnull2 : queries (max_attempts - 1) = JValue.null := hnull
  rw [hnull2] at h
  simp [hasKey] at h

theorem claim_C2_amended_witness :
    (poll_for_building_analysis_completion (fun _ => reqErrSample) 5).exitTaken = .timedOut
    ∧ (poll_for_building_analysis_completion (fun _ => reqErrSample) 5).status_queries = 5
    ∧ (poll_for_building_analysis_completion (fun _ => reqErrSample) 5).returned = reqErrSample
    ∧ (poll_for_building_analysis_completion (fun _ => reqErrSample) 5).returned ≠ .null
    ∧ (poll_for_building_analysis_completion (fun _ => reqErrSample) 5 |>.sleeps) = 5
    ∧ (poll_for_building_analysis_completion (fun _ => reqErrSample) 0).returned
        = noDataMarker := by
  have h := claim_C2_amended_last_failure_record (fun _ => reqErrSample) 5 (by omega)
    (fun i _ => rfl)
  exact ⟨h.1, h.2.1, by simpa using h.2.2.1, by simpa using h.2.2.2.1, rfl, h.2.2.2.2.1⟩

/-- Terminal-prefix lemma: when the first `k - 1` queries are retried on
and attempt `k` (1-based) is reached with attempts to spare, the whole
loop behaves like the loop started directly at attempt `k`. -/
theorem poll_reaches_attempt (queries : Nat → JValue) (k max_attempts : Nat)
    (hk : 1 ≤ k) (hkm : k ≤ max_attempts)
    (hprev : ∀ i, i < k - 1 → retriesOn (queries i)) :
    ∃ l2, poll_for_building_analysis_completion queries max_attempts
      = pollGo queries (k - 1) (max_attempts - k + 1) (k - 1) l2 := by
  obtain ⟨l2, hl2⟩ := pollGo_skip queries (k - 1) 0 (max_attempts - k + 1) 0 none
    (fun i hi => by simpa using hprev i hi)
  have e1 : k - 1 + (max_attempts - k + 1) = max_attempts := by omega
  unfold poll_for_building_analysis_completion
  rw [e1] at hl2
  exact ⟨l2, by simpa using hl2⟩

/-- **C3.** If the status query first returns `generation_result =
COMPLETE` on attempt `k` (1-based, `k ≤ max_attempts`) after IN_PROGRESS
on attempts `1..k-1`, the loop performs exactly `k` queries, returns that
COMPLETE snapshot unmodified through the line-154 exit, and sleeps only
after the `k - 1` IN_PROGRESS responses — never after the COMPLETE one. -/
theorem claim_C3_complete_at_attempt_k (queries : Nat → JValue) (k max_attempts : Nat)
    (hk : 1 ≤ k) (hkm : k ≤ max_attempts)
    (hprev : ∀ i, i < k - 1 → inProgressSnap (queries i))
    (hc : completeSnap (queries (k - 1))) :
    (poll_for_building_analysis_completion queries max_attempts).status_queries = k
    ∧ (poll_for_building_analysis_completion queries max_attempts).returned = queries (k - 1)
    ∧ (poll_for_building_analysis_completion queries max_attempts).exitTaken = .complete
    ∧ (poll_for_building_analysis_completion queries max_attempts).sleeps = k - 1 := by
  obtain ⟨l2, hl2⟩ := poll_reaches_attempt queries k max_attempts hk hkm
    (fun i hi => Or.inl (hprev i hi))
  have e2 : max_attempts - k + 1 = (max_attempts - k) + 1 := rfl
  rw [hl2, e2, pollGo_complete_step queries (k - 1) (max_attempts - k) (k - 1) l2 hc]
  exact ⟨(by omega : k - 1 + 1 = k), rfl, rfl, rfl⟩

/-- Sample COMPLETE snapshot used by the concrete witnesses. -/
def completeSample : JValue :=
  .obj [("id", .num 55), ("generation_result", .str "COMPLETE"),
        ("savings_target", .str "NOMINAL"), ("min_model_r_squared", .num 0)]

theorem claim_C3_witness :
    (poll_for_building_analysis_completion
        (fun i => if i < 2 then ipSnap else completeSample) 30).status_queries = 3
    ∧ (poll_for_building_analysis_completion
        (fun i => if i < 2 then ipSnap else completeSample) 30).returned = completeSample
    ∧ (poll_for_building_analysis_completion
        (fun i => if i < 2 then ipSnap else completeSample) 30).exitTaken = .complete
    ∧ (poll_for_building_analysis_completion
        (fun i => if i < 2 then ipSnap else completeSample) 30).sleeps = 2 := by
  have h := claim_C3_complete_at_attempt_k
    (fun i => if i < 2 then ipSnap else completeSample) 3 30 (by omega) (by omega)
    (fun i hi => by
      show inProgressSnap (if i < 2 then ipSnap else completeSample)
      rw [if_pos (show i < 2 by omega)]
      exact ⟨rfl, rfl⟩)
    ⟨rfl, rfl⟩
  simpa using h

/-- A successful snapshot whose `generation_result` is none of the three
recognized values (an unrecognized or absent status). -/
def unexpectedSnap (d : JValue) : Prop :=
  (truthy d && !hasKey d "error") = true
    ∧ getKey d "generation_result" ≠ some (.str "COMPLETE")
    ∧ getKey d "generation_result" ≠ some (.str "FAILED")
    ∧ getKey d "generation_result" ≠ some (.str "IN_PROGRESS")

theorem pollGo_unexpected_step (queries : Nat → JValue) (a r s : Nat)
    (last : Option JValue) (h : unexpectedSnap (queries a)) :
    pollGo queries a (r + 1) s last
      = { returned := queries a, status_queries := a + 1, sleeps := s,
          exitTaken := .unexpected } := by
  obtain ⟨h1, hc, hf, hp⟩ := h
  simp only [pollGo, h1, if_true]

/-- **C4.** A successful status query whose `generation_result` is any
value other than COMPLETE, FAILED or IN_PROGRESS (including an absent
one) makes the loop return that snapshot immediately through the
line-162 exit, with no further query and no sleep after it, even when
attempts remain (`k ≤ max_attempts` arbitrary). -/
theorem claim_C4_unexpected_returns_immediately (queries : Nat → JValue) (k max_attempts : Nat)
    (hk : 1 ≤ k) (hkm : k ≤ max_attempts)
    (hprev : ∀ i, i < k - 1 → inProgressSnap (queries i))
    (hu : unexpectedSnap (queries (k - 1))) :
    (poll_for_building_analysis_completion queries max_attempts).status_queries = k
    ∧ (poll_for_building_analysis_completion queries max_attempts).returned = queries (k - 1)
    ∧ (poll_for_building_analysis_completion queries max_attempts).exitTaken = .unexpected
    ∧ (poll_for_building_analysis_completion queries max_attempts).sleeps = k - 1 := by
  obtain ⟨l2, hl2⟩ := poll_reaches_attempt queries k max_attempts hk hkm
    (fun i hi => Or.inl (hprev i hi))
  have e2 : max_attempts - k + 1 = (max_attempts - k) + 1 := rfl
  rw [hl2, e2, pollGo_unexpected_step queries (k - 1) (max_attempts - k) (k - 1) l2 hu]
  exact ⟨(by omega : k - 1 + 1 = k), rfl, rfl, rfl⟩

/-- Sample snapshot with the unrecognized status "PAUSED". -/
def pausedSample : JValue :=
  .obj [("id", .num 55), ("generation_result", .str "PAUSED")]

theorem claim_C4_witness :
    (poll_for_building_analysis_completion
        (fun i => if i < 1 then ipSnap else pausedSample) 30).status_queries = 2
    ∧ (poll_for_building_analysis_completion
        (fun i => if i < 1 then ipSnap else pausedSample) 30).returned = pausedSample
    ∧ (poll_for_building_analysis_completion
        (fun i => if i < 1 then ipSnap else pausedSample) 30).exitTaken = .unexpected
    ∧ (poll_for_building_analysis_completion
        (fun i => if i < 1 then ipSnap else pausedSample) 30).sleeps = 1 := by
  have h := claim_C4_unexpected_returns_immediately
    (fun i => if i < 1 then ipSnap else pausedSample) 2 30 (by omega) (by omega)
    (fun i hi => by
      show inProgressSnap (if i < 1 then ipSnap else pausedSample)
      rw [if_pos (show i < 1 by omega)]
      exact ⟨rfl, rfl⟩)
    (by
      show unexpectedSnap (if (1 : Nat) < 1 then ipSnap else pausedSample)
      rw [if_neg (by omega)]
      refine ⟨rfl, ?_, ?_, ?_⟩ <;> simp [getKey, pausedSample])
  simpa using h

/-- **C5.** If the submission response already reports
`generation_result = FAILED` (synchronous rejection), the per-building
flow of `main` takes the line-123 branch: it keeps that snapshot and
performs zero status queries — the poll loop is never entered. -/
theorem claim_C5_sync_rejection_skips_polling (submitResp : JValue)
    (queries : Nat → JValue) (max_attempts : Nat)
    (h1 : truthy submitResp = true) (h2 : hasKey submitResp "id" = true)
    (h3 : getKey submitResp "generation_result" = some (.str "FAILED")) :
    submit_and_poll submitResp queries max_attempts = .sync_rejected submitResp
    ∧ (submit_and_poll submitResp queries max_attempts).flow_status_queries = 0 := by
  have he : submit_and_poll submitResp queries max_attempts = .sync_rejected submitResp := by
    simp [submit_and_poll, h1, h2, h3]
  exact ⟨he, by rw [he]; rfl⟩

/-- Sample synchronously rejected submission response. -/
def failedSubmitSample : JValue :=
  .obj [("id", .num 77), ("generation_result", .str "FAILED"),
        ("generation_message", .str "insufficient utility bill data")]

theorem claim_C5_witness :
    submit_and_poll failedSubmitSample (fun _ => ipSnap) 30
        = .sync_rejected failedSubmitSample
    ∧ (submit_and_poll failedSubmitSample (fun _ => ipSnap) 30).flow_status_queries = 0 :=
  claim_C5_sync_rejection_skips_polling failedSubmitSample (fun _ => ipSnap) 30 rfl rfl rfl

/-- **C6.** The claim is right about the intent but wrong about the
program: at the failing input — credentials present, method GET, a 200
response whose non-empty body "<html>" fails to decode with message
"Expecting value: line 1 column 1 (char 0)" — the dispatcher returns the
line-50 `RequestException` record carrying the decode message.  The
outcome kind is not "JSONDecodeError" and the record carries no
`raw_response` field, because the decode failure raised by
`response.json()` (`requests.exceptions.JSONDecodeError`, a
`RequestException` subclass since requests 2.27) is caught by the
line-49 arm before the line-51 arm can see it, leaving the line-52
record the claim describes unreachable on this path. -/
theorem claim_C6_decode_failure_yields_request_exception_record :
    (_make_request (fun _ => .error "Expecting value: line 1 column 1 (char 0)")
        (.response 200 "<html>" "") "GET" "/portfolios/" (some "key")
        (some "http://api")).result
      = .obj [("error", .str "RequestException"),
              ("message", .str "Expecting value: line 1 column 1 (char 0)")]
    ∧ getKey (_make_request (fun _ => .error "Expecting value: line 1 column 1 (char 0)")
        (.response 200 "<html>" "") "GET" "/portfolios/" (some "key")
        (some "http://api")).result "error" ≠ some (.str "JSONDecodeError")
    ∧ getKey (_make_request (fun _ => .error "Expecting value: line 1 column 1 (char 0)")
        (.response 200 "<html>" "") "GET" "/portfolios/" (some "key")
        (some "http://api")).result "raw_response" = none := by
  refine ⟨rfl, ?_, rfl⟩
  intro h
  rw [show getKey (_make_request
        (fun _ => .error "Expecting value: line 1 column 1 (char 0)")
        (.response 200 "<html>" "") "GET" "/portfolios/" (some "key")
        (some "http://api")).result "error"
      = some (.str "RequestException") from rfl] at h
  injection h with h2
  injection h2 with h3
  exact absurd h3 (by decide)

/-- **C7.** With credentials present, a method whose uppercasing is none
of GET, POST, PATCH, DELETE makes `_make_request` return the line-35
unsupported-method record without reaching any of the four network
calls, whatever the transport would have answered. -/
theorem claim_C7_unsupported_method_no_network
    (parse : String → Except String JValue) (outcome : HttpOutcome)
    (method endpoint : String) (api_key base_url : Option String)
    (hkey : strFalsy api_key = false) (hroot : strFalsy base_url = false)
    (hg : upperStr method ≠ "GET") (hp : upperStr method ≠ "POST")
    (hpa : upperStr method ≠ "PATCH") (hd : upperStr method ≠ "DELETE") :
    (_make_request parse outcome method endpoint api_key base_url).result
      = .obj [("error", .str ("Unsupported HTTP method: " ++ method))]
    ∧ (_make_request parse outcome method endpoint api_key base_url).network_called
      = false := by
  unfold _make_request
  simp [hkey, hroot, hg, hp, hpa, hd]

theorem claim_C7_witness :
    (_make_request (fun _ => .error "bad") (.response 200 "x" "") "PUT" "/portfolios/"
        (some "key") (some "http://api")).result
      = .obj [("error", .str ("Unsupported HTTP method: " ++ "PUT"))]
    ∧ (_make_request (fun _ => .error "bad") (.response 200 "x" "") "PUT" "/portfolios/"
        (some "key") (some "http://api")).network_called = false :=
  claim_C7_unsupported_method_no_network (fun _ => .error "bad") (.response 200 "x" "")
    "PUT" "/portfolios/" (some "key") (some "http://api") rfl rfl
    (by decide) (by decide) (by decide) (by decide)

/-- **C8.** A dispatch whose API key or endpoint root is missing (absent
or empty) returns the line-16 configuration-error record and never
reaches a network call, whatever the method and transport. -/
theorem claim_C8_missing_credentials_no_network
    (parse : String → Except String JValue) (outcome : HttpOutcome)
    (method endpoint : String) (api_key base_url : Option String)
    (hcred : strFalsy api_key = true ∨ strFalsy base_url = true) :
    (_make_request parse outcome method endpoint api_key base_url).result
      = .obj [("error", .str "API_KEY and BASE_URL must be provided.")]
    ∧ (_make_request parse outcome method endpoint api_key base_url).network_called
      = false := by
  unfold _make_request
  rcases hcred with hc | hc <;> simp [hc]

theorem claim_C8_witness :
    (_make_request (fun _ => .error "bad") (.response 200 "x" "") "GET" "/portfolios/"
        none (some "http://api")).result
      = .obj [("error", .str "API_KEY and BASE_URL must be provided.")]
    ∧ (_make_request (fun _ => .error "bad") (.response 200 "x" "") "GET" "/portfolios/"
        none (some "http://api")).network_called = false :=
  claim_C8_missing_credentials_no_network (fun _ => .error "bad") (.response 200 "x" "")
    "GET" "/portfolios/" none (some "http://api") (Or.inl rfl)

/-- **C9.** When credentials are missing and the method is unsupported at
the same time, the line-15 credential check takes precedence: the result
is the missing-credentials record, no network call is attempted, and the
method is never examined — the whole result is unchanged under any
replacement of the method. -/
theorem claim_C9_credential_check_precedes_method_check
    (parse : String → Except String JValue) (outcome : HttpOutcome)
    (method endpoint : String) (api_key base_url : Option String)
    (hcred : strFalsy api_key = true ∨ strFalsy base_url = true)
    (hg : upperStr method ≠ "GET") (hp : upperStr method ≠ "POST")
    (hpa : upperStr method ≠ "PATCH") (hd : upperStr method ≠ "DELETE") :
    (_make_request parse outcome method endpoint api_key base_url).result
      = .obj [("error", .str "API_KEY and BASE_URL must be provided.")]
    ∧ (_make_request parse outcome method endpoint api_key base_url).network_called
      = false
    ∧ ∀ method2, _make_request parse outcome method endpoint api_key base_url
        = _make_request parse outcome method2 endpoint api_key base_url := by
  unfold _make_request
  rcases hcred with hc | hc <;> simp [hc]

theorem claim_C9_witness :
    (_make_request (fun _ => .error "bad") (.response 200 "x" "") "PUT" "/portfolios/"
        (some "") (some "http://api")).result
      = .obj [("error", .str "API_KEY and BASE_URL must be provided.")]
    ∧ (_make_request (fun _ => .error "bad") (.response 200 "x" "") "PUT" "/portfolios/"
        (some "") (some "http://api")).network_called = false
    ∧ ∀ method2, _make_request (fun _ => .error "bad") (.response 200 "x" "") "PUT"
        "/portfolios/" (some "") (some "http://api")
      = _make_request (fun _ => .error "bad") (.response 200 "x" "") method2
        "/portfolios/" (some "") (some "http://api") :=
  claim_C9_credential_check_precedes_method_check (fun _ => .error "bad")
    (.response 200 "x" "") "PUT" "/portfolios/" (some "") (some "http://api")
    (Or.inl rfl) (by decide) (by decide) (by decide) (by decide)

theorem rstripSlash_append_slash (s : String) : rstripSlash (s ++ "/") = rstripSlash s := by
  show String.mk _ = String.mk _
  congr 1
  rw [String.data_append, show ("/" : String).data = ['/'] from rfl]
  simp [List.dropWhile]

theorem lstripSlash_slash_append (s : String) : lstripSlash ("/" ++ s) = lstripSlash s := by
  show String.mk _ = String.mk _
  congr 1

theorem append_slash_ne_empty (s : String) : s ++ "/" ≠ "" := by
  intro h
  have h2 := congrArg String.data h
  rw [String.data_append, show ("/" : String).data = ['/'] from rfl,
      show ("" : String).data = ([] : List Char) from rfl] at h2
  simp at h2

/-- With credentials present, the `url` of line 18 is `buildUrl`, whatever
the method, transport outcome and parse behaviour. -/
theorem make_request_url (parse : String → Except String JValue) (outcome : HttpOutcome)
    (method endpoint : String) (api_key base_url : Option String)
    (hkey : strFalsy api_key = false) (hroot : strFalsy base_url = false) :
    (_make_request parse outcome method endpoint api_key base_url).url
      = some (buildUrl (base_url.getD "") endpoint) := by
  unfold _make_request
  rw [hkey, hroot]
  simp only [Bool.or_self, if_false, Bool.false_eq_true]
  cases outcome <;> (repeat (first | rfl | split))

/-- **C10.** The request URL built by the dispatcher is insensitive to
trailing slashes on the base URL and leading slashes on the endpoint: it
always equals the base URL stripped of trailing slashes, joined by
exactly one slash to the endpoint stripped of leading slashes, so
dispatching with `base ++ "/"` and `endpoint` targets the same URL as
dispatching with `base` and `"/" ++ endpoint`. -/
theorem claim_C10_url_slash_insensitive (parse : String → Except String JValue)
    (outcome : HttpOutcome) (method endpoint : String) (api_key : Option String)
    (base : String) (hkey : strFalsy api_key = false) (hbase : base ≠ "") :
    (_make_request parse outcome method endpoint api_key (some base)).url
      = some (rstripSlash base ++ "/" ++ lstripSlash endpoint)
    ∧ (_make_request parse outcome method endpoint api_key (some (base ++ "/"))).url
      = (_make_request parse outcome method ("/" ++ endpoint) api_key (some base)).url := by
  have hroot : strFalsy (some base) = false := by simp [strFalsy, hbase]
  have hroot2 : strFalsy (some (base ++ "/")) = false := by
    simp [strFalsy, append_slash_ne_empty base]
  constructor
  · rw [make_request_url parse outcome method endpoint api_key (some base) hkey hroot]
    rfl
  · rw [make_request_url parse outcome method endpoint api_key (some (base ++ "/"))
        hkey hroot2,
      make_request_url parse outcome method ("/" ++ endpoint) api_key (some base)
        hkey hroot]
    show some (buildUrl (base ++ "/") endpoint) = some (buildUrl base ("/" ++ endpoint))
    unfold buildUrl
    rw [rstripSlash_append_slash, lstripSlash_slash_append]

theorem claim_C10_witness :
    (_make_request (fun _ => .error "bad") (.response 200 "x" "") "GET" "portfolios/"
        (some "key") (some "http://api")).url
      = some (rstripSlash "http://api" ++ "/" ++ lstripSlash "portfolios/")
    ∧ (_make_request (fun _ => .error "bad") (.response 200 "x" "") "GET" "portfolios/"
        (some "key") (some ("http://api" ++ "/"))).url
      = (_make_request (fun _ => .error "bad") (.response 200 "x" "") "GET"
        ("/" ++ "portfolios/") (some "key") (some "http://api")).url :=
  claim_C10_url_slash_insensitive (fun _ => .error "bad") (.response 200 "x" "") "GET"
    "portfolios/" (some "key") "http://api" rfl (by decide)
